import Mathlib

/-!
Verification development for the AlertoDePin backend: a shallow embedding of
the alert lifecycle controllers (`alertController.js`), the alert-list scoping
query (`getAlerts`), the IoT creation path (`createIoTAlert`), the route-level
role middleware (`authorizeRoles` on the respond route), and the notification
controllers (`notificationController.js`), together with theorems settling the
spec claims about them.

Conventions of the embedding:
* Mongo ObjectIds are `Nat`; timestamps (`Date.now()`, `new Date()`) are an
  explicit `now : Nat` parameter.
* Each controller guard that returns `res.status(s).json({message})` without
  writing is embedded as an error branch carrying the status code `s` and the
  message, returning the alert unchanged and producing no side effects.
* Socket emissions are recorded as an ordered `List Effect`; notification
  documents created by a transition are recorded as an ordered `List Notif`.
  The socket server (`io`) is always registered by `server.js`, so the
  `if (io)` guards are taken as true.
-/

/-- The `userType` enum of `userSchema` (src/models/User.js). -/
inductive Role
  | citizen | police | hospital | fire | family | admin
deriving DecidableEq, Repr

/-- The `type` enum of `alertSchema` (src/models/Alert.js). -/
inductive AType
  | police | hospital | fire | family
deriving DecidableEq, Repr

/-- The `status` enum of `alertSchema`. -/
inductive Status
  | pending | active | responded | resolved | cancelled
deriving DecidableEq, Repr

/-- The `priority` enum of `alertSchema`. -/
inductive Priority
  | low | medium | high | critical
deriving DecidableEq, Repr

/-- The `status` enum of `userSchema`. -/
inductive UStatus
  | active | inactive | suspended
deriving DecidableEq, Repr

abbrev UserId := Nat

/-- JS string equality `req.user.userType === alert.type`: the userType and
alert-type enums share the strings police/hospital/fire/family. -/
def roleEqType : Role → AType → Bool
  | .police, .police => true
  | .hospital, .hospital => true
  | .fire, .fire => true
  | .family, .family => true
  | _, _ => false

/-- Rendering of `Status` values as the schema strings (used by the templated
cancel message). -/
def statusStr : Status → String
  | .pending => "pending"
  | .active => "active"
  | .responded => "responded"
  | .resolved => "resolved"
  | .cancelled => "cancelled"

/-- Rendering of `AType` values as the schema strings (used by templated
titles/messages). -/
def tyStr : AType → String
  | .police => "police"
  | .hospital => "hospital"
  | .fire => "fire"
  | .family => "family"

/-- One entry of `alertSchema.timeline`:
`{action, user (ref), timestamp, notes}`. -/
structure TimelineEntry where
  action : String
  user : Option UserId := none
  timestamp : Nat
  notes : Option String := none
deriving DecidableEq, Repr

/-- The Alert document (the `alertSchema` fields the lifecycle touches; `ty`
embeds the schema field named `type`). `coordinates` is the GeoJSON
`[longitude, latitude]` array, with coordinates as rationals. -/
structure Alert where
  title : Option String := none
  description : Option String := none
  ty : AType
  status : Status := .pending
  priority : Priority := .medium
  address : String := ""
  coordinates : List Rat := []
  reporter : UserId
  responder : Option UserId := none
  notes : Option String := none
  responseTime : Option Nat := none
  resolvedTime : Option Nat := none
  timeline : List TimelineEntry := []
deriving DecidableEq, Repr

/-- The authenticated caller placed on `req.user` by the `authenticate`
middleware. -/
structure Caller where
  id : UserId
  userType : Role
  name : String := ""
deriving DecidableEq, Repr

/-- An error response `res.status(status).json({message})`. -/
structure ErrResp where
  status : Nat
  message : String
deriving DecidableEq, Repr

/-- Modelled from the spec: src/models/Notification.js is not under src/.
Per the spec, a Notification is "a durable record of an event delivered to one
`user`, referencing the triggering `alert`, carrying a `type` tag and a `read`
flag defaulting to false"; the controllers additionally set title and message
strings. `ntype` embeds the field named `type`. -/
structure Notif where
  user : UserId
  ntype : String
  title : String := ""
  message : String := ""
  read : Bool := false
deriving DecidableEq, Repr

/-- A socket side effect: `io.to(room).emit(event, …)` targeted at one user's
room, or a global `io.emit(event, …)` broadcast. -/
inductive Effect
  | emitToUser (target : UserId) (event : String)
  | broadcast (event : String)
deriving DecidableEq, Repr

/-- Outcome of one lifecycle controller call on an existing alert: the error
response if a guard fired (then `alert` is the unchanged input), the resulting
alert document, the notification documents created, and the socket effects in
program order. -/
structure OpResult where
  error : Option ErrResp := none
  alert : Alert
  notifs : List Notif := []
  events : List Effect := []
deriving DecidableEq, Repr

/-- A guard rejection: alert unchanged, no side effects. -/
def errOut (a : Alert) (e : ErrResp) : OpResult :=
  { error := some e, alert := a }

/-- Embeds `respondToAlert` (alertController, src/unnamed/part_000 lines
350-409): status guard, role guard, then responder/status/responseTime set,
one timeline push, `alertResponded` emit to the reporter's room, one
`alert_responded` Notification for the reporter, `newNotification` emit. -/
def respondToAlert (a : Alert) (c : Caller) (now : Nat) : OpResult :=
  if ¬ (a.status = .pending ∨ a.status = .active) then
    errOut a ⟨400, "Alert is not available for response"⟩
  else if ¬ (roleEqType c.userType a.ty = true ∨ c.userType = .admin) then
    errOut a ⟨403, "Not authorized to respond to this alert type"⟩
  else
    { error := none
      alert := { a with
        responder := some c.id
        status := .responded
        responseTime := some now
        timeline := a.timeline ++
          [⟨"Responder assigned and en route", some c.id, now, none⟩] }
      notifs := [⟨a.reporter, "alert_responded", "Alert Responded",
        "Your alert has been responded to by " ++ c.name, false⟩]
      events := [.emitToUser a.reporter "alertResponded",
        .emitToUser a.reporter "newNotification"] }

/-- The roles passed to `authorizeRoles` on the respond route
(src/unnamed/part_002): `router.put(/:id/respond, authenticate,
authorizeRoles(police, hospital, fire, admin), respondToAlert)`. -/
def respondRoles : List Role := [.police, .hospital, .fire, .admin]

/-- The respond route as mounted: the `authorizeRoles` middleware rejects any
caller whose role is outside `respondRoles` with 403 before the controller
runs. -/
def respondPipeline (a : Alert) (c : Caller) (now : Nat) : OpResult :=
  if ¬ (c.userType ∈ respondRoles) then
    errOut a ⟨403, "Access denied. Required roles: police, hospital, fire, admin"⟩
  else respondToAlert a c now

/-- Embeds `resolveAlert` (part_000 lines 414-476): only the assigned
responder or an admin may resolve; there is no status guard. Sets status and
resolvedTime, pushes one timeline entry carrying the request notes, emits
`alertResolved` and `alertUpdated` to the reporter, creates one
`alert_resolved` Notification and emits `newNotification`. -/
def resolveAlert (a : Alert) (c : Caller) (now : Nat) (bodyNotes : Option String) :
    OpResult :=
  if ¬ (a.responder = some c.id ∨ c.userType = .admin) then
    errOut a ⟨403, "Not authorized to resolve this alert"⟩
  else
    { error := none
      alert := { a with
        status := .resolved
        resolvedTime := some now
        timeline := a.timeline ++ [⟨"Alert resolved", some c.id, now, bodyNotes⟩] }
      notifs := [⟨a.reporter, "alert_resolved", "Alert Resolved",
        "Your alert has been resolved", false⟩]
      events := [.emitToUser a.reporter "alertResolved",
        .emitToUser a.reporter "alertUpdated",
        .emitToUser a.reporter "newNotification"] }

/-- Embeds `cancelAlert` (part_000 lines 481-529), guards in source order:
reporter check (403), responder-assigned check (400), status check (400); on
success status becomes cancelled and one timeline entry is pushed; no
notification or socket effect is produced. -/
def cancelAlert (a : Alert) (c : Caller) (now : Nat) : OpResult :=
  if ¬ (a.reporter = c.id) then
    errOut a ⟨403, "Only the reporter can cancel this alert"⟩
  else if ¬ (a.responder = none) then
    errOut a ⟨400, "Cannot cancel alert - a responder has already been assigned. Please contact them directly."⟩
  else if ¬ (a.status = .pending ∨ a.status = .active) then
    errOut a ⟨400, "Cannot cancel alert with status: " ++ statusStr a.status⟩
  else
    { error := none
      alert := { a with
        status := .cancelled
        timeline := a.timeline ++ [⟨"Alert cancelled by reporter", some c.id,
          now, some "Reporter cancelled the alert before response"⟩] } }

/-- The fields of `req.body` that `updateAlert` can merge into the alert via
`findByIdAndUpdate(id, {...req.body})` (runValidators keeps enum fields within
their enums, which the Lean types already enforce). `none` means the field is
absent from the body; for nullable fields a present value is itself an
`Option`. -/
structure UpdateBody where
  title : Option String := none
  description : Option String := none
  status : Option Status := none
  priority : Option Priority := none
  address : Option String := none
  responder : Option (Option UserId) := none
  notes : Option String := none
  responseTime : Option (Option Nat) := none
  resolvedTime : Option (Option Nat) := none
  timeline : Option (List TimelineEntry) := none
deriving DecidableEq, Repr

/-- The document produced by `findByIdAndUpdate(id, {...req.body})`: each
field present in the body replaces the stored field. -/
def mergeBody (a : Alert) (b : UpdateBody) : Alert :=
  { a with
    title := match b.title with | some t => some t | none => a.title
    description := match b.description with | some d => some d | none => a.description
    status := b.status.getD a.status
    priority := b.priority.getD a.priority
    address := b.address.getD a.address
    responder := b.responder.getD a.responder
    notes := match b.notes with | some n => some n | none => a.notes
    responseTime := b.responseTime.getD a.responseTime
    resolvedTime := b.resolvedTime.getD a.resolvedTime
    timeline := b.timeline.getD a.timeline }

/-- Embeds `updateAlert` (part_000 lines 307-345): only the reporter, the
assigned responder, or an admin may update; the body is merged wholesale and
an `alertUpdated` event is emitted to the reporter. -/
def updateAlert (a : Alert) (c : Caller) (b : UpdateBody) (_now : Nat) : OpResult :=
  if ¬ (a.reporter = c.id ∨ a.responder = some c.id ∨ c.userType = .admin) then
    errOut a ⟨403, "Not authorized to update this alert"⟩
  else
    { error := none
      alert := mergeBody a b
      events := [.emitToUser a.reporter "alertUpdated"] }

/-- A stored User document as it sits in the document store. MongoDB is
schemaless, so a stored document may carry a `familyMembers` array (written by
older code or directly), even though `userSchema` (src/models/User.js) does
not declare that path; `familyMembersStored` models that raw stored array.
Raw queries (`User.find({familyMembers: id})` in `getAlerts`) are evaluated by
the store against the stored document, while schema-mediated document access
exposes only schema paths. -/
structure UserDoc where
  id : UserId
  name : String := ""
  email : String := ""
  userType : Role := .citizen
  status : UStatus := .active
  familyMembersStored : List UserId := []
deriving DecidableEq, Repr

/-- Schema-mediated read of `reporter.familyMembers` after
`User.findById(id).populate('familyMembers')` in `createAlert`: `userSchema`
declares no `familyMembers` path, so a mongoose document exposes no such
field (`reporter.familyMembers` is `undefined`; under mongoose strictPopulate
the populate call itself throws, and the surrounding try/catch swallows it).
Either way the family loop body never runs. -/
def schemaFamilyMembers (_reporterDoc : Option UserDoc) : List UserId := []

/-- Input body of `createAlert` (`{title, description, type, priority,
location, notes, images}` from `req.body`); `ty` embeds the field named
`type`. -/
structure CreateInput where
  title : String := ""
  description : String := ""
  ty : AType
  priority : Option Priority := none
  address : String := ""
  coordinates : List Rat := []
  notes : Option String := none
deriving DecidableEq, Repr

/-- Result of an alert-creating controller: the created alert document, the
notification documents created, and the socket effects in program order. -/
structure CreateResult where
  alert : Alert
  notifs : List Notif := []
  events : List Effect := []
deriving DecidableEq, Repr

/-- Embeds `createAlert` (part_000 lines 212-302): the alert is created with
schema-default status `pending`, priority defaulted to medium, the caller as
reporter and a single "Alert created" timeline entry. Fan-out:
`User.find({userType: type, status: active}).limit(20)` yields at most 20
responders, each receiving a targeted `newAlert` event and an `alert`-type
Notification; the family block reads `reporter.familyMembers` through the
schema (see `schemaFamilyMembers`); finally one global `new-alert` broadcast
is always emitted. -/
def createAlert (users : List UserDoc) (c : Caller) (inp : CreateInput)
    (now : Nat) : CreateResult :=
  let alert : Alert :=
    { title := some inp.title
      description := some inp.description
      ty := inp.ty
      status := .pending
      priority := inp.priority.getD .medium
      address := inp.address
      coordinates := inp.coordinates
      reporter := c.id
      responder := none
      notes := inp.notes
      timeline := [⟨"Alert created", some c.id, now, none⟩] }
  let nearbyResponders :=
    (users.filter (fun u => roleEqType u.userType inp.ty && u.status = UStatus.active)).take 20
  let respEvents := nearbyResponders.map (fun u => Effect.emitToUser u.id "newAlert")
  let respNotifs := nearbyResponders.map (fun u =>
    (⟨u.id, "alert", "New " ++ tyStr inp.ty ++ " alert",
      "New " ++ tyStr inp.ty ++ " alert: " ++ inp.title, false⟩ : Notif))
  let famIds := schemaFamilyMembers (users.find? (fun u => u.id = c.id))
  let famNotifs := famIds.map (fun f =>
    (⟨f, "family_alert", "Family alert from " ++ c.name,
      c.name ++ " sent an emergency alert: " ++ inp.title, false⟩ : Notif))
  let famEvents := famIds.flatMap (fun f =>
    [Effect.emitToUser f "newNotification", Effect.emitToUser f "new-alert"])
  { alert := alert
    notifs := respNotifs ++ famNotifs
    events := respEvents ++ famEvents ++ [Effect.broadcast "new-alert"] }

/-- The fixed identity of the synthetic device reporter
(`getIoTReporterUser`, part_000 lines 123-140). -/
def iotReporterEmail : String := "device@alertodepin.local"

/-- The fixed display name of the synthetic device reporter. -/
def iotReporterName : String := "AlertoDePin Device"

/-- A fresh ObjectId for a newly provisioned document: one above the largest
id in the store. -/
def freshUserId (users : List UserDoc) : UserId :=
  (users.foldl (fun m u => max m u.id) 0) + 1

/-- Embeds `getIoTReporterUser`: look up the device account by its fixed
email and lazily provision it (name/email fixed, userType citizen, status
active) when absent. Returns the account and the updated user store. -/
def getIoTReporterUser (users : List UserDoc) : UserDoc × List UserDoc :=
  match users.find? (fun u => u.email = iotReporterEmail) with
  | some u => (u, users)
  | none =>
      let u : UserDoc :=
        { id := freshUserId users
          name := iotReporterName
          email := iotReporterEmail
          userType := .citizen
          status := .active }
      (u, users ++ [u])

/-- Embeds `n.toFixed(5)` on a rational: rounding half away from zero to five decimal
places, rendered with the fractional part zero-padded to width five. -/
def toFixed5 (q : Rat) : String :=
  let scaled : Nat := (Int.floor (|q| * 100000 + 1/2)).toNat
  let ip := scaled / 100000
  let fp := scaled % 100000
  let fs := toString fp
  let pad := String.mk (List.replicate (5 - fs.length) '0') ++ fs
  (if q < 0 then "-" else "") ++ toString ip ++ "." ++ pad

/-- Request body of the IoT route (`POST /api/alerts/iot`), fields optional as
received. -/
structure IoTInput where
  ty : Option AType := none
  latitude : Option Rat := none
  longitude : Option Rat := none
deriving DecidableEq, Repr

/-- Result of `createIoTAlert`: validation error (if any), the created alert,
the user store after possible device-account provisioning, and the socket
effects. -/
structure IoTResult where
  error : Option ErrResp := none
  alertMade : Option Alert := none
  users : List UserDoc
  events : List Effect := []
deriving DecidableEq, Repr

/-- Embeds `createIoTAlert` (part_000 lines 145-206): requires type, latitude
and longitude; resolves or provisions the device reporter; `geocoded` is the
outcome of the external `reverseGeocode` collaborator (`none` when the
collaborator is unavailable, errors, or returns no address), in which case
the address falls back to the coordinate-literal string; the alert is created
with priority critical, status `active`, the device account as reporter and a
single initial timeline entry; one global `new-alert` broadcast is emitted. -/
def createIoTAlert (users : List UserDoc) (inp : IoTInput)
    (geocoded : Option String) (now : Nat) : IoTResult :=
  match inp.ty, inp.latitude, inp.longitude with
  | some ty, some lat, some lng =>
      let devAndStore := getIoTReporterUser users
      let addressText := match geocoded with
        | some s => s
        | none => "Lat: " ++ toFixed5 lat ++ ", Lon: " ++ toFixed5 lng ++ " (IoT device)"
      let alert : Alert :=
        { title := some ("IoT " ++ tyStr ty ++ " alert")
          description := some "Automatic alert from IoT device"
          ty := ty
          priority := .critical
          status := .active
          address := addressText
          coordinates := [lng, lat]
          reporter := devAndStore.1.id
          timeline := [⟨"Alert created from IoT (auto-active)", some devAndStore.1.id,
            now, some "Initial status set to active from IoT device"⟩] }
      { error := none, alertMade := some alert, users := devAndStore.2,
        events := [Effect.broadcast "new-alert"] }
  | _, _, _ =>
      { error := some ⟨400, "Fields required: type, latitude, longitude"⟩,
        users := users }

/-- The optional `status`/`type`/`priority` filters of `GET /api/alerts`
(`req.query`). -/
structure ListFilters where
  status : Option Status := none
  ty : Option AType := none
  priority : Option Priority := none
deriving DecidableEq, Repr

/-- The base query built from the filters in `getAlerts`. -/
def matchesFilters (f : ListFilters) (a : Alert) : Bool :=
  (match f.status with | some s => a.status = s | none => true) &&
  (match f.ty with | some t => a.ty = t | none => true) &&
  (match f.priority with | some p => a.priority = p | none => true)

/-- The role-dependent scope restriction `getAlerts` (part_000 lines 46-100)
adds to the query: admins are unrestricted; citizens and family members see
alerts whose reporter is themselves or a user whose stored `familyMembers`
array lists them (`User.find({familyMembers: req.user.id})`, evaluated by the
store against stored documents, then `reporterIds.unshift(req.user.id)`);
police/hospital/fire see alerts whose type equals their role or whose
responder is themselves. -/
def scopePred (c : Caller) (users : List UserDoc) (a : Alert) : Bool :=
  match c.userType with
  | .admin => true
  | .citizen | .family =>
      let reporterIds :=
        c.id :: (users.filter (fun u => c.id ∈ u.familyMembersStored)).map (·.id)
      a.reporter ∈ reporterIds
  | _ => roleEqType c.userType a.ty || a.responder = some c.id

/-- Embeds the `getAlerts` query: the stored alerts matching both the base
filters and the caller scope. (The controller additionally sorts by creation
time and paginates, returning a subsequence of this list; the scoping claims
are about query membership, which pagination preserves.) -/
def getAlerts (f : ListFilters) (c : Caller) (users : List UserDoc)
    (alerts : List Alert) : List Alert :=
  alerts.filter (fun a => matchesFilters f a && scopePred c users a)

/-- A stored Notification document as the notification controllers see it:
its ObjectId, owner, and read flag (see `Notif` for the creation-time
fields). -/
structure NotifDoc where
  id : Nat
  user : UserId
  read : Bool := false
  ntype : String := ""
deriving DecidableEq, Repr

/-- Embeds `markAsRead` (notificationController.js lines 40-62):
`findOne({_id: id, user: caller})`; absent → 404 and no write; found → that
document's read flag is set (the save writes back by `_id`). -/
def markAsRead (store : List NotifDoc) (caller : UserId) (nid : Nat) :
    Option ErrResp × List NotifDoc :=
  match store.find? (fun n => n.id = nid && n.user = caller) with
  | none => (some ⟨404, "Notification not found"⟩, store)
  | some _ =>
      (none, store.map (fun n => if n.id = nid then { n with read := true } else n))

/-- Embeds `deleteNotification` (lines 84-102): `findOne({_id: id, user:
caller})`; absent → 404 and no write; found → that document is removed. -/
def deleteNotification (store : List NotifDoc) (caller : UserId) (nid : Nat) :
    Option ErrResp × List NotifDoc :=
  match store.find? (fun n => n.id = nid && n.user = caller) with
  | none => (some ⟨404, "Notification not found"⟩, store)
  | some _ => (none, store.filter (fun n => ¬ n.id = nid))

/-- Embeds `markAllAsRead` (lines 67-79): `updateMany({user: caller, read:
false}, {read: true})`. -/
def markAllAsRead (store : List NotifDoc) (caller : UserId) : List NotifDoc :=
  store.map (fun n => if n.user = caller && n.read = false then { n with read := true } else n)

/-- Embeds `clearReadNotifications` (lines 107-120): `deleteMany({user:
caller, read: true})`. -/
def clearReadNotifications (store : List NotifDoc) (caller : UserId) : List NotifDoc :=
  store.filter (fun n => ¬ (n.user = caller ∧ n.read = true))

/-- A lifecycle operation on an existing alert, with its caller and clock, as
reachable through the mounted routes (respond goes through the
`authorizeRoles` middleware). -/
inductive StepOp
  | respond (c : Caller) (now : Nat)
  | resolve (c : Caller) (now : Nat) (notes : Option String)
  | cancel (c : Caller) (now : Nat)
  | update (c : Caller) (b : UpdateBody) (now : Nat)
deriving DecidableEq, Repr

/-- Whether a step is the free-form `update` operation. -/
def StepOp.isUpdate : StepOp → Bool
  | .update _ _ _ => true
  | _ => false

/-- The alert document after one lifecycle call: the controller's result on
success, the stored document untouched when a guard rejected the call. -/
def stepAlert (a : Alert) : StepOp → Alert
  | .respond c now => (respondPipeline a c now).alert
  | .resolve c now notes => (resolveAlert a c now notes).alert
  | .cancel c now => (cancelAlert a c now).alert
  | .update c b now => (updateAlert a c b now).alert

/-- The alert document after a sequence of lifecycle calls. -/
def runSteps (a : Alert) (ops : List StepOp) : Alert :=
  ops.foldl stepAlert a

/-- An alert as first persisted by one of the two creation paths:
`createAlert` (web) or `createIoTAlert` (device). -/
def InitialAlert (a : Alert) : Prop :=
  (∃ users c inp now, a = (createAlert users c inp now).alert) ∨
  (∃ users inp geocoded now, (createIoTAlert users inp geocoded now).alertMade = some a)

/-- An alert reachable from some creation by some sequence of lifecycle
operations. -/
def ReachableAlert (a : Alert) : Prop :=
  ∃ a0 ops, InitialAlert a0 ∧ a = runSteps a0 ops

/-- The invariant claimed by the spec in its one provable direction: a set
responder entails status responded or resolved. -/
def RespInv (a : Alert) : Prop :=
  a.responder.isSome = true → a.status = .responded ∨ a.status = .resolved

/-- Concrete citizen reporter used in counterexamples and witnesses. -/
def anaCaller : Caller := ⟨1, .citizen, "Ana"⟩

/-- Concrete police responder. -/
def copCaller : Caller := ⟨2, .police, "Cop"⟩

/-- Concrete admin. -/
def admCaller : Caller := ⟨3, .admin, "Adm"⟩

/-- Concrete family-role user. -/
def kinCaller : Caller := ⟨5, .family, "Kin"⟩

/-- Concrete police-type creation input. -/
def policeInput : CreateInput := { title := "Help", ty := .police, address := "Naga" }

/-- Concrete family-type creation input. -/
def familyInput : CreateInput := { title := "Kin help", ty := .family, address := "Naga" }

/-- A freshly created police-type alert (pending, no responder, one timeline
entry). -/
def alertZero : Alert := (createAlert [] anaCaller policeInput 0).alert

/-- A freshly created family-type alert. -/
def famAlertZero : Alert := (createAlert [] anaCaller familyInput 0).alert

/-- The alert `alertZero` after the admin resolves it directly from pending: status
resolved with no responder ever assigned. -/
def resolvedSansResponder : Alert :=
  runSteps alertZero [.resolve admCaller 5 none]

/-- The alert `alertZero` after the police responder accepts it. -/
def respondedAlert : Alert := runSteps alertZero [.respond copCaller 5]

/-- The alert `respondedAlert` resolved by its responder at time 10. -/
def resolvedAlert : Alert := runSteps respondedAlert [.resolve copCaller 10 none]

/-- An update body that replaces the timeline with the empty list. -/
def wipeBody : UpdateBody := { timeline := some [] }

lemma respInv_step (a : Alert) (op : StepOp) (hop : op.isUpdate = false)
    (h : RespInv a) : RespInv (stepAlert a op) := by
  cases op with
  | respond c now =>
      simp only [stepAlert, respondPipeline, respondToAlert]
      split
      · exact h
      · split
        · exact h
        · split
          · exact h
          · intro _
            exact Or.inl rfl
  | resolve c now notes =>
      simp only [stepAlert, resolveAlert]
      split
      · exact h
      · intro _
        exact Or.inr rfl
  | cancel c now =>
      simp only [stepAlert, cancelAlert]
      split
      · exact h
      · split
        · exact h
        · split
          · exact h
          · rename_i hrep hres hst
            intro hs
            rw [not_not] at hres
            simp [errOut, hres] at hs
  | update c b now =>
      simp [StepOp.isUpdate] at hop

lemma respInv_initial (a : Alert) (h : InitialAlert a) : a.responder = none := by
  rcases h with ⟨users, c, inp, now, rfl⟩ | ⟨users, inp, geocoded, now, hm⟩
  · rfl
  · rcases inp with ⟨ty, lat, lng⟩
    cases ty <;> cases lat <;> cases lng <;>
      simp only [createIoTAlert, Option.some.injEq, reduceCtorEq] at hm
    rw [← hm]

/-- C1 counterexample: the claimed invariant "responder is set iff status is
responded or resolved" fails on a reachable alert: `resolveAlert` has no
state or responder-present guard, so an admin resolving a freshly created
pending alert yields status resolved with responder still unset. -/
theorem c1_responder_iff_cex :
    ¬ (∀ a, ReachableAlert a →
        (a.responder.isSome = true ↔ (a.status = .responded ∨ a.status = .resolved))) := by
  intro h
  have hreach : ReachableAlert resolvedSansResponder :=
    ⟨alertZero, [.resolve admCaller 5 none],
      Or.inl ⟨[], anaCaller, policeInput, 0, rfl⟩, rfl⟩
  have h2 := (h resolvedSansResponder hreach).mpr (Or.inr (by decide))
  exact absurd h2 (by decide)

/-- C1 amended: for every alert reachable by create/respond/resolve/cancel
(any callers, any order, the free-form `update` excluded), if `responder` is
set then status is responded or resolved. The converse direction of the
claimed invariant is false (see the counterexample), and `update` can break
both directions by merging arbitrary `status`/`responder` values. -/
theorem c1_responder_only_when_responded_or_resolved
    (a0 : Alert) (ops : List StepOp) (hinit : InitialAlert a0)
    (hops : ∀ op ∈ ops, op.isUpdate = false) :
    RespInv (runSteps a0 ops) := by
  have h0 : RespInv a0 := by
    intro hs
    rw [respInv_initial a0 hinit] at hs
    exact absurd hs (by decide)
  clear hinit
  induction ops generalizing a0 with
  | nil => exact h0
  | cons op rest ih =>
      exact ih (stepAlert a0 op)
        (fun o ho => hops o (List.mem_cons_of_mem op ho))
        (respInv_step a0 op (hops op (List.mem_cons_self op rest)) h0)

/-- C1 witness: instantiating the amended invariant on a concrete create +
respond sequence. -/
theorem c1_responder_only_witness :
    respondedAlert.status = .responded ∨ respondedAlert.status = .resolved :=
  c1_responder_only_when_responded_or_resolved alertZero [.respond copCaller 5]
    (Or.inl ⟨[], anaCaller, policeInput, 0, rfl⟩)
    (by intro op hop; simp only [List.mem_singleton] at hop; rw [hop]; rfl)
    (by decide)

/-- C2 counterexample: `resolveAlert` has no status guard, so calling resolve
on an already-resolved reachable alert succeeds again (no ConflictError) and
overwrites `resolvedTime` (here from 10 to 20). -/
theorem c2_terminal_cex :
    ¬ (∀ (a : Alert) (c : Caller) (now : Nat) (notes : Option String),
        ReachableAlert a → a.status = .resolved →
        (resolveAlert a c now notes).error.isSome = true ∧
        (resolveAlert a c now notes).alert.resolvedTime = a.resolvedTime) := by
  intro h
  have hreach : ReachableAlert resolvedAlert :=
    ⟨alertZero, [.respond copCaller 5, .resolve copCaller 10 none],
      Or.inl ⟨[], anaCaller, policeInput, 0, rfl⟩, rfl⟩
  exact absurd (h resolvedAlert copCaller 20 none hreach (by decide)) (by decide)

/-- C2 amended: from a resolved or cancelled alert, `respond` and `cancel`
are indeed rejected with the alert unchanged; but `resolve` and `update` are
not guarded by status: an authorized caller (assigned responder or admin) can
re-resolve an already-resolved alert, overwriting `resolvedTime` and
appending another timeline entry, and an authorized update also succeeds from
a terminal state. -/
theorem c2_terminal_guards (a : Alert) (c : Caller) (now : Nat)
    (notes : Option String) (b : UpdateBody)
    (hterm : a.status = .resolved ∨ a.status = .cancelled) :
    ((respondPipeline a c now).error.isSome = true ∧ (respondPipeline a c now).alert = a)
    ∧ ((cancelAlert a c now).error.isSome = true ∧ (cancelAlert a c now).alert = a)
    ∧ ((a.responder = some c.id ∨ c.userType = .admin) →
        (resolveAlert a c now notes).error = none ∧
        (resolveAlert a c now notes).alert.resolvedTime = some now ∧
        (resolveAlert a c now notes).alert.status = .resolved ∧
        (resolveAlert a c now notes).alert.timeline
          = a.timeline ++ [⟨"Alert resolved", some c.id, now, notes⟩])
    ∧ ((a.reporter = c.id ∨ a.responder = some c.id ∨ c.userType = .admin) →
        (updateAlert a c b now).error = none) := by
  have hna : ¬ (a.status = .pending ∨ a.status = .active) := by
    rcases hterm with h | h <;> rw [h] <;> decide
  refine ⟨?_, ?_, ?_, ?_⟩
  · by_cases hmem : c.userType ∈ respondRoles
    · simp [respondPipeline, respondToAlert, hmem, hna, errOut]
    · simp [respondPipeline, respondToAlert, hmem, errOut]
  · by_cases hrep : a.reporter = c.id
    · by_cases hres : a.responder = none
      · simp [cancelAlert, hrep, hres, hna, errOut]
      · simp [cancelAlert, hrep, hres, errOut]
    · simp [cancelAlert, hrep, errOut]
  · intro hauth
    rcases hauth with h | h <;> simp [resolveAlert, h, errOut]
  · intro hauth
    rcases hauth with h | h | h <;> simp [updateAlert, h, errOut]

/-- C2 witness: on the concrete resolved alert, respond and cancel are
rejected while re-resolve and update by the assigned responder succeed. -/
theorem c2_terminal_guards_witness :
    (respondPipeline resolvedAlert copCaller 30).error.isSome = true
    ∧ (cancelAlert resolvedAlert copCaller 30).error.isSome = true
    ∧ (resolveAlert resolvedAlert copCaller 30 none).error = none
    ∧ (updateAlert resolvedAlert copCaller wipeBody 30).error = none := by
  have h := c2_terminal_guards resolvedAlert copCaller 30 none wipeBody
    (Or.inl (by decide))
  exact ⟨h.1.1, h.2.1.1, (h.2.2.1 (Or.inl (by decide))).1,
    h.2.2.2 (Or.inr (Or.inl (by decide)))⟩

/-- C3 counterexample: the respond route is mounted behind
`authorizeRoles(police, hospital, fire, admin)`, so a family-role caller is
rejected with 403 even on a pending family-type alert whose type equals the
caller's role — the claimed success condition "caller role equals the alert
type, or admin" is not sufficient. -/
theorem c3_respond_cex :
    ¬ (∀ (a : Alert) (c : Caller) (now : Nat),
        (a.status = .pending ∨ a.status = .active) →
        (roleEqType c.userType a.ty = true ∨ c.userType = .admin) →
        (respondPipeline a c now).error = none) := by
  intro h
  have h2 := h famAlertZero kinCaller 5 (Or.inl (by decide)) (Or.inl (by decide))
  exact absurd h2 (by decide)

/-- C3 amended: for a pending or active alert, a caller who is admin, or
whose role is police/hospital/fire and equals the alert type, succeeds:
responder becomes the caller, status responded, responseTime now, exactly one
timeline entry appended, one `alertResponded` event targeted at the reporter
and one Notification for the reporter (delivered with a `newNotification`
event). Any caller with role not equal to the alert type and not admin is
rejected with a 403 AuthorizationError (as is a family-role caller on a
family-type alert, by the route middleware — see the counterexample). -/
theorem c3_respond_semantics (a : Alert) (c : Caller) (now : Nat)
    (hst : a.status = .pending ∨ a.status = .active) :
    ((((c.userType = .police ∨ c.userType = .hospital ∨ c.userType = .fire) ∧
        roleEqType c.userType a.ty = true) ∨ c.userType = .admin) →
      respondPipeline a c now =
        { error := none
          alert := { a with
            responder := some c.id
            status := .responded
            responseTime := some now
            timeline := a.timeline ++
              [⟨"Responder assigned and en route", some c.id, now, none⟩] }
          notifs := [⟨a.reporter, "alert_responded", "Alert Responded",
            "Your alert has been responded to by " ++ c.name, false⟩]
          events := [.emitToUser a.reporter "alertResponded",
            .emitToUser a.reporter "newNotification"] })
    ∧ ((roleEqType c.userType a.ty = false ∧ ¬ c.userType = .admin) →
        ∃ m, respondPipeline a c now = errOut a ⟨403, m⟩) := by
  constructor
  · intro hok
    rcases hok with ⟨hr, hmatch⟩ | hadm
    · rcases hr with h | h | h <;> rw [h] at hmatch <;> rcases hst with h1 | h1 <;>
        simp [respondPipeline, respondToAlert, respondRoles, h, h1, hmatch, errOut]
    · rcases hst with h1 | h1 <;>
        simp [respondPipeline, respondToAlert, respondRoles, hadm, h1, errOut]
  · rintro ⟨hne, hnadm⟩
    by_cases hmem : c.userType ∈ respondRoles
    · refine ⟨"Not authorized to respond to this alert type", ?_⟩
      rcases hst with h1 | h1 <;>
        simp [respondPipeline, respondToAlert, hmem, h1, hne, hnadm, errOut]
    · exact ⟨"Access denied. Required roles: police, hospital, fire, admin", by
        simp [respondPipeline, hmem, errOut]⟩

/-- C3 witness: the concrete police responder succeeds on the fresh pending
police alert, and the concrete citizen reporter is rejected with 403. -/
theorem c3_respond_semantics_witness :
    respondPipeline alertZero copCaller 5 =
      { error := none
        alert := { alertZero with
          responder := some copCaller.id
          status := .responded
          responseTime := some 5
          timeline := alertZero.timeline ++
            [⟨"Responder assigned and en route", some copCaller.id, 5, none⟩] }
        notifs := [⟨alertZero.reporter, "alert_responded", "Alert Responded",
          "Your alert has been responded to by " ++ copCaller.name, false⟩]
        events := [.emitToUser alertZero.reporter "alertResponded",
          .emitToUser alertZero.reporter "newNotification"] }
    ∧ ∃ m, respondPipeline alertZero anaCaller 5 = errOut alertZero ⟨403, m⟩ :=
  ⟨(c3_respond_semantics alertZero copCaller 5 (Or.inl (by decide))).1
      (Or.inl ⟨Or.inl rfl, by decide⟩),
    (c3_respond_semantics alertZero anaCaller 5 (Or.inl (by decide))).2
      ⟨by decide, by decide⟩⟩

/-- C4 counterexample: `cancelAlert` checks reporter identity before the
responder-assigned conflict, so an admin (or any non-reporter) cancelling an
alert whose responder is set receives a 403 AuthorizationError, not the
claimed 400 ConflictError. -/
theorem c4_cancel_cex :
    ¬ (∀ (a : Alert) (c : Caller) (now : Nat), a.responder.isSome = true →
        ∃ m, (cancelAlert a c now).error = some ⟨400, m⟩) := by
  intro h
  rcases h respondedAlert admCaller 9 (by decide) with ⟨m, hm⟩
  rw [show (cancelAlert respondedAlert admCaller 9).error
      = some ⟨403, "Only the reporter can cancel this alert"⟩ from by decide] at hm
  simp only [Option.some.injEq, ErrResp.mk.injEq] at hm
  exact absurd hm.1 (by decide)

/-- C4 amended: `cancel` succeeds exactly when the caller is the reporter,
`responder` is unset and status is pending or active, and then sets status
cancelled and appends exactly one timeline entry; when `responder` is set the
reporter gets the 400 ConflictError, but any non-reporter caller — admin
included — gets the 403 AuthorizationError instead, because the reporter
check precedes the conflict check. -/
theorem c4_cancel_semantics (a : Alert) (c : Caller) (now : Nat) :
    ((cancelAlert a c now).error = none ↔
      (a.reporter = c.id ∧ a.responder = none ∧
        (a.status = .pending ∨ a.status = .active)))
    ∧ ((cancelAlert a c now).error = none →
        cancelAlert a c now =
          { error := none
            alert := { a with
              status := .cancelled
              timeline := a.timeline ++ [⟨"Alert cancelled by reporter",
                some c.id, now, some "Reporter cancelled the alert before response"⟩] } })
    ∧ (a.reporter = c.id → a.responder.isSome = true →
        (cancelAlert a c now).error = some ⟨400,
          "Cannot cancel alert - a responder has already been assigned. Please contact them directly."⟩)
    ∧ (¬ a.reporter = c.id →
        (cancelAlert a c now).error = some ⟨403, "Only the reporter can cancel this alert"⟩) := by
  by_cases hrep : a.reporter = c.id
  · by_cases hres : a.responder = none
    · by_cases hstat : a.status = .pending ∨ a.status = .active
      · simp [cancelAlert, hrep, hres, hstat, errOut]
      · simp [cancelAlert, hrep, hres, hstat, errOut]
    · simp [cancelAlert, hrep, hres, errOut]
  · simp [cancelAlert, hrep, errOut]

/-- C4 witness: the reporter cancels the fresh pending alert; on the
responded alert the reporter gets the conflict error and the admin gets the
authorization error. -/
theorem c4_cancel_semantics_witness :
    (cancelAlert alertZero anaCaller 7).error = none
    ∧ (cancelAlert respondedAlert anaCaller 7).error = some ⟨400,
        "Cannot cancel alert - a responder has already been assigned. Please contact them directly."⟩
    ∧ (cancelAlert respondedAlert admCaller 7).error = some ⟨403,
        "Only the reporter can cancel this alert"⟩ :=
  ⟨(c4_cancel_semantics alertZero anaCaller 7).1.mpr
      ⟨by decide, by decide, Or.inl (by decide)⟩,
    (c4_cancel_semantics respondedAlert anaCaller 7).2.2.1 (by decide) (by decide),
    (c4_cancel_semantics respondedAlert admCaller 7).2.2.2 (by decide)⟩

lemma timeline_step_le (a : Alert) (op : StepOp) (hop : op.isUpdate = false) :
    a.timeline.length ≤ (stepAlert a op).timeline.length := by
  cases op with
  | respond c now =>
      by_cases hmem : c.userType ∈ respondRoles
      · by_cases hst : a.status = .pending ∨ a.status = .active
        · by_cases hrole : roleEqType c.userType a.ty = true ∨ c.userType = .admin
          · simp [stepAlert, respondPipeline, respondToAlert, hmem, hst, hrole, errOut]
          · simp [stepAlert, respondPipeline, respondToAlert, hmem, hst, hrole, errOut]
        · simp [stepAlert, respondPipeline, respondToAlert, hmem, hst, errOut]
      · simp [stepAlert, respondPipeline, hmem, errOut]
  | resolve c now notes =>
      by_cases hauth : a.responder = some c.id ∨ c.userType = .admin
      · simp [stepAlert, resolveAlert, hauth, errOut]
      · simp [stepAlert, resolveAlert, hauth, errOut]
  | cancel c now =>
      by_cases hrep : a.reporter = c.id
      · by_cases hres : a.responder = none
        · by_cases hst : a.status = .pending ∨ a.status = .active
          · simp [stepAlert, cancelAlert, hrep, hres, hst, errOut]
          · simp [stepAlert, cancelAlert, hrep, hres, hst, errOut]
        · simp [stepAlert, cancelAlert, hrep, hres, errOut]
      · simp [stepAlert, cancelAlert, hrep, errOut]
  | update c b now =>
      simp [StepOp.isUpdate] at hop

lemma runSteps_timeline_le (a : Alert) (ops : List StepOp)
    (hops : ∀ op ∈ ops, op.isUpdate = false) :
    a.timeline.length ≤ (runSteps a ops).timeline.length := by
  induction ops generalizing a with
  | nil => exact le_refl _
  | cons op rest ih =>
      exact le_trans (timeline_step_le a op (hops op (List.mem_cons_self op rest)))
        (ih (stepAlert a op) (fun o ho => hops o (List.mem_cons_of_mem op ho)))

/-- C5 counterexample: the claimed "timeline length is non-decreasing across
every lifecycle operation (including update)" fails: `updateAlert` merges the
request body wholesale, so an authorized update carrying `timeline: []` wipes
the timeline of a reachable alert (length 1 to 0). -/
theorem c5_timeline_cex :
    ¬ (∀ (a : Alert) (op : StepOp), ReachableAlert a →
        a.timeline.length ≤ (stepAlert a op).timeline.length) := by
  intro h
  have h2 := h alertZero (.update anaCaller wipeBody 3)
    ⟨alertZero, [], Or.inl ⟨[], anaCaller, policeInput, 0, rfl⟩, rfl⟩
  exact absurd h2 (by decide)

/-- C5 amended: across create/respond/resolve/cancel the timeline is
append-only — creation initializes it with exactly one entry, each successful
transition appends exactly one entry after the existing ones unchanged, and a
rejected call leaves it untouched, so its length is non-decreasing over any
such sequence; `update`, however, replaces fields wholesale and can shrink or
rewrite the timeline (see the counterexample). -/
theorem c5_timeline_append_only (a : Alert) (ops : List StepOp) (c : Caller)
    (now : Nat) (notes : Option String) (users : List UserDoc) (inp : CreateInput) :
    ((∀ op ∈ ops, op.isUpdate = false) →
      a.timeline.length ≤ (runSteps a ops).timeline.length)
    ∧ (createAlert users c inp now).alert.timeline.length = 1
    ∧ ((respondPipeline a c now).error = none →
        (respondPipeline a c now).alert.timeline
          = a.timeline ++ [⟨"Responder assigned and en route", some c.id, now, none⟩])
    ∧ ((resolveAlert a c now notes).error = none →
        (resolveAlert a c now notes).alert.timeline
          = a.timeline ++ [⟨"Alert resolved", some c.id, now, notes⟩])
    ∧ ((cancelAlert a c now).error = none →
        (cancelAlert a c now).alert.timeline
          = a.timeline ++ [⟨"Alert cancelled by reporter", some c.id, now,
              some "Reporter cancelled the alert before response"⟩]) := by
  refine ⟨runSteps_timeline_le a ops, rfl, ?_, ?_, ?_⟩
  · intro herr
    by_cases hmem : c.userType ∈ respondRoles
    · by_cases hst : a.status = .pending ∨ a.status = .active
      · by_cases hrole : roleEqType c.userType a.ty = true ∨ c.userType = .admin
        · simp [respondPipeline, respondToAlert, hmem, hst, hrole, errOut]
        · simp [respondPipeline, respondToAlert, hmem, hst, hrole, errOut] at herr
      · simp [respondPipeline, respondToAlert, hmem, hst, errOut] at herr
    · simp [respondPipeline, hmem, errOut] at herr
  · intro herr
    by_cases hauth : a.responder = some c.id ∨ c.userType = .admin
    · simp [resolveAlert, hauth, errOut]
    · simp [resolveAlert, hauth, errOut] at herr
  · intro herr
    by_cases hrep : a.reporter = c.id
    · by_cases hres : a.responder = none
      · by_cases hst : a.status = .pending ∨ a.status = .active
        · simp [cancelAlert, hrep, hres, hst, errOut]
        · simp [cancelAlert, hrep, hres, hst, errOut] at herr
      · simp [cancelAlert, hrep, hres, errOut] at herr
    · simp [cancelAlert, hrep, errOut] at herr

/-- C5 witness: length monotone over a concrete no-update sequence, and the
concrete respond appends its single entry. -/
theorem c5_timeline_append_only_witness :
    (alertZero.timeline.length ≤ (runSteps alertZero [.respond copCaller 5]).timeline.length)
    ∧ (createAlert [] anaCaller policeInput 0).alert.timeline.length = 1
    ∧ (respondPipeline alertZero copCaller 5).alert.timeline
        = alertZero.timeline ++ [⟨"Responder assigned and en route", some copCaller.id, 5, none⟩] := by
  have h := c5_timeline_append_only alertZero [.respond copCaller 5] copCaller 5
    none [] policeInput
  exact ⟨h.1 (by decide), h.2.1, h.2.2.1 (by decide)⟩

/-- C6 confirmed: whenever respond (through its route pipeline), resolve,
cancel or update is rejected, every guard fires before any write, so the
alert — timeline included — is returned exactly as it was, no notification is
created, no event is emitted, and the error is a 403 authorization rejection
or a 400 invalid-state/conflict rejection. -/
theorem c6_rejection_no_partial_writes (a : Alert) (c : Caller) (now : Nat)
    (notes : Option String) (b : UpdateBody) :
    ((respondPipeline a c now).error.isSome = true →
      (respondPipeline a c now).alert = a ∧ (respondPipeline a c now).notifs = []
      ∧ (respondPipeline a c now).events = []
      ∧ ((respondPipeline a c now).error.map ErrResp.status = some 400
         ∨ (respondPipeline a c now).error.map ErrResp.status = some 403))
    ∧ ((resolveAlert a c now notes).error.isSome = true →
      (resolveAlert a c now notes).alert = a ∧ (resolveAlert a c now notes).notifs = []
      ∧ (resolveAlert a c now notes).events = []
      ∧ (resolveAlert a c now notes).error.map ErrResp.status = some 403)
    ∧ ((cancelAlert a c now).error.isSome = true →
      (cancelAlert a c now).alert = a ∧ (cancelAlert a c now).notifs = []
      ∧ (cancelAlert a c now).events = []
      ∧ ((cancelAlert a c now).error.map ErrResp.status = some 400
         ∨ (cancelAlert a c now).error.map ErrResp.status = some 403))
    ∧ ((updateAlert a c b now).error.isSome = true →
      (updateAlert a c b now).alert = a ∧ (updateAlert a c b now).notifs = []
      ∧ (updateAlert a c b now).events = []
      ∧ (updateAlert a c b now).error.map ErrResp.status = some 403) := by
  refine ⟨?_, ?_, ?_, ?_⟩
  · intro herr
    by_cases hmem : c.userType ∈ respondRoles
    · by_cases hst : a.status = .pending ∨ a.status = .active
      · by_cases hrole : roleEqType c.userType a.ty = true ∨ c.userType = .admin
        · simp [respondPipeline, respondToAlert, hmem, hst, hrole, errOut] at herr
        · simp [respondPipeline, respondToAlert, hmem, hst, hrole, errOut]
      · simp [respondPipeline, respondToAlert, hmem, hst, errOut]
    · simp [respondPipeline, hmem, errOut]
  · intro herr
    by_cases hauth : a.responder = some c.id ∨ c.userType = .admin
    · simp [resolveAlert, hauth, errOut] at herr
    · simp [resolveAlert, hauth, errOut]
  · intro herr
    by_cases hrep : a.reporter = c.id
    · by_cases hres : a.responder = none
      · by_cases hst : a.status = .pending ∨ a.status = .active
        · simp [cancelAlert, hrep, hres, hst, errOut] at herr
        · simp [cancelAlert, hrep, hres, hst, errOut]
      · simp [cancelAlert, hrep, hres, errOut]
    · simp [cancelAlert, hrep, errOut]
  · intro herr
    by_cases hauth : a.reporter = c.id ∨ a.responder = some c.id ∨ c.userType = .admin
    · simp [updateAlert, hauth, errOut] at herr
    · simp [updateAlert, hauth, errOut]

/-- C6 witness: the concrete family-role outsider is rejected by all four
operations on the responded alert, which each return it unchanged. -/
theorem c6_rejection_no_partial_writes_witness :
    (respondPipeline respondedAlert kinCaller 9).alert = respondedAlert
    ∧ (resolveAlert respondedAlert kinCaller 9 none).alert = respondedAlert
    ∧ (cancelAlert respondedAlert kinCaller 9).alert = respondedAlert
    ∧ (updateAlert respondedAlert kinCaller wipeBody 9).alert = respondedAlert := by
  have h := c6_rejection_no_partial_writes respondedAlert kinCaller 9 none wipeBody
  exact ⟨(h.1 (by decide)).1, (h.2.1 (by decide)).1, (h.2.2.1 (by decide)).1,
    (h.2.2.2 (by decide)).1⟩

/-- A concrete user store for the create fan-out: the reporter Ana whose
stored document lists user 9 as a family member, the family member, and one
active police responder. -/
def famStoreUsers : List UserDoc :=
  [⟨1, "Ana", "ana@x", .citizen, .active, [9]⟩,
   ⟨9, "Fam", "fam@x", .citizen, .active, []⟩,
   ⟨2, "Cop", "cop@x", .police, .active, []⟩]

/-- C7: evaluation at the failing input. `createAlert` by Ana (whose stored
document lists a family member) produces the matching-responder notification
and event and the global broadcast, but no `family_alert` Notification and no
event for the family member: `userSchema` declares no `familyMembers` path,
so the controller's `populate('familyMembers')` read yields nothing (see
`schemaFamilyMembers`) and the family fan-out loop never runs, contradicting
the claimed one-Notification-plus-duplicate-event per family member. -/
theorem c7_family_fanout_missing :
    (createAlert famStoreUsers anaCaller policeInput 0).notifs
      = [⟨2, "alert", "New police alert", "New police alert: Help", false⟩]
    ∧ (createAlert famStoreUsers anaCaller policeInput 0).events
      = [.emitToUser 2 "newAlert", .broadcast "new-alert"]
    ∧ ((createAlert famStoreUsers anaCaller policeInput 0).notifs.filter
        (fun n => n.ntype == "family_alert")) = [] := by
  decide

/-- C8 confirmed: a device-path create supplied type, latitude and longitude
with the geocoding collaborator unavailable (`geocoded = none`) succeeds and
yields an alert with status active (never pending), the coordinate-literal
fallback address — which contains the rendered latitude and longitude —
reporter equal to the device account returned by `getIoTReporterUser` (an
account that always carries the fixed device email, and is provisioned fresh
under the fixed name/email identity when the store lacks it, as the
empty-store conjunct shows), and exactly one initial timeline entry. -/
theorem c8_iot_create (users : List UserDoc) (ty : AType) (lat lng : Rat) (now : Nat) :
    (createIoTAlert users ⟨some ty, some lat, some lng⟩ none now).error = none
    ∧ (∃ al, (createIoTAlert users ⟨some ty, some lat, some lng⟩ none now).alertMade = some al
        ∧ al.status = .active
        ∧ al.address = "Lat: " ++ toFixed5 lat ++ ", Lon: " ++ toFixed5 lng ++ " (IoT device)"
        ∧ (∃ s t, al.address = s ++ toFixed5 lat ++ t)
        ∧ (∃ s t, al.address = s ++ toFixed5 lng ++ t)
        ∧ al.reporter = (getIoTReporterUser users).1.id
        ∧ al.timeline.length = 1)
    ∧ (getIoTReporterUser users).1.email = iotReporterEmail
    ∧ (getIoTReporterUser []).2
        = [{ id := 1, name := iotReporterName, email := iotReporterEmail,
             userType := .citizen, status := .active }] := by
  refine ⟨rfl,
    ⟨_, rfl, rfl, rfl,
      ⟨"Lat: ", ", Lon: " ++ toFixed5 lng ++ " (IoT device)", ?_⟩,
      ⟨"Lat: " ++ toFixed5 lat ++ ", Lon: ", " (IoT device)", rfl⟩,
      rfl, rfl⟩,
    ?_, rfl⟩
  · simp only [String.append_assoc]
  · rcases hfind : users.find? (fun u => u.email = iotReporterEmail) with _ | u
    · simp [getIoTReporterUser, hfind]
    · have hp := List.find?_some hfind
      simp only [decide_eq_true_eq] at hp
      simp [getIoTReporterUser, hfind, hp]

/-- C9 confirmed: the list query is scoped by caller role exactly as claimed:
citizen/family callers only ever receive alerts whose reporter is themselves
or a user whose stored document lists them among its family members;
police/hospital/fire callers only receive alerts of their own type or alerts
they are assigned to as responder; an admin's results are restricted only by
the explicit status/type/priority filters, not by role. -/
theorem c9_list_scoping (f : ListFilters) (c : Caller) (users : List UserDoc)
    (alerts : List Alert) (a : Alert) (ha : a ∈ getAlerts f c users alerts) :
    ((c.userType = .citizen ∨ c.userType = .family) →
      a.reporter = c.id ∨ ∃ u ∈ users, u.id = a.reporter ∧ c.id ∈ u.familyMembersStored)
    ∧ ((c.userType = .police ∨ c.userType = .hospital ∨ c.userType = .fire) →
      roleEqType c.userType a.ty = true ∨ a.responder = some c.id)
    ∧ (c.userType = .admin →
      getAlerts f c users alerts = alerts.filter (fun x => matchesFilters f x)) := by
  have hmem := List.mem_filter.mp ha
  have hboth : matchesFilters f a = true ∧ scopePred c users a = true := by
    simpa using hmem.2
  have hsp := hboth.2
  refine ⟨?_, ?_, ?_⟩
  · intro hrole
    have hsp2 :
        a.reporter ∈ c.id :: (users.filter (fun u => c.id ∈ u.familyMembersStored)).map (·.id) := by
      rcases hrole with h | h <;> simp only [scopePred, h, decide_eq_true_eq] at hsp <;>
        exact hsp
    rcases List.mem_cons.mp hsp2 with h1 | h1
    · exact Or.inl h1
    · rcases List.mem_map.mp h1 with ⟨u, hu, hid⟩
      have hu2 := List.mem_filter.mp hu
      exact Or.inr ⟨u, hu2.1, hid, by simpa using hu2.2⟩
  · intro hrole
    rcases hrole with h | h | h <;> rw [h] <;> simp only [scopePred, h] at hsp <;>
      simpa using hsp
  · intro h
    simp [getAlerts, scopePred, h]

/-- C9 witness: a police caller receives a police-type alert through the
scoped query. -/
theorem c9_list_scoping_witness :
    roleEqType copCaller.userType alertZero.ty = true
    ∨ alertZero.responder = some copCaller.id :=
  (c9_list_scoping {} copCaller [] [alertZero] alertZero (by decide)).2.1
    (Or.inl rfl)

/-- A single stored notification owned by user 10. -/
def soloNotif : NotifDoc := ⟨1, 10, false, ""⟩

/-- A one-notification store. -/
def soloStore : List NotifDoc := [soloNotif]

/-- C10 confirmed: notification operations are owner-scoped. With a store
whose ids are unique, mark-one-read and delete-one aimed at a notification
owned by someone other than the caller answer 404 and return the store
unchanged; mark-all-read leaves every other user's notification exactly in
place (position-wise); and clear-read keeps every other user's notification,
deleting only the caller's read ones. -/
theorem c10_notifications_owner_scoped (store : List NotifDoc) (caller : UserId)
    (nid : Nat) (i : Nat) (n : NotifDoc)
    (hget : store[i]? = some n) (hid : n.id = nid) (huser : ¬ n.user = caller)
    (hnodup : (store.map NotifDoc.id).Nodup) :
    markAsRead store caller nid = (some ⟨404, "Notification not found"⟩, store)
    ∧ deleteNotification store caller nid = (some ⟨404, "Notification not found"⟩, store)
    ∧ (markAllAsRead store caller)[i]? = some n
    ∧ n ∈ clearReadNotifications store caller
    ∧ (∀ m ∈ store, m ∉ clearReadNotifications store caller →
        m.user = caller ∧ m.read = true) := by
  have hn : n ∈ store := List.getElem?_mem hget
  have hfind : store.find? (fun m => m.id = nid && m.user = caller) = none := by
    rw [List.find?_eq_none]
    intro m hm
    simp only [Bool.and_eq_true, decide_eq_true_eq, not_and]
    intro hmid
    have hmn : m = n :=
      List.inj_on_of_nodup_map hnodup hm hn (by rw [hmid, hid])
    rw [hmn]
    exact huser
  refine ⟨?_, ?_, ?_, ?_, ?_⟩
  · rw [markAsRead, hfind]
  · rw [deleteNotification, hfind]
  · simp only [markAllAsRead]
    rw [List.getElem?_map, hget]
    simp [huser]
  · exact List.mem_filter.mpr ⟨hn, by simp [huser]⟩
  · intro m hm hnot
    by_cases hu : m.user = caller ∧ m.read = true
    · exact hu
    · exact absurd (List.mem_filter.mpr ⟨hm, by simp [hu]⟩) hnot

/-- C10 witness: with the one-notification store owned by user 10, a call by
user 20 gets 404 from mark-one and delete-one with the store unchanged, and
mark-all/clear-read leave the foreign notification in place. -/
theorem c10_notifications_owner_scoped_witness :
    markAsRead soloStore 20 1 = (some ⟨404, "Notification not found"⟩, soloStore)
    ∧ deleteNotification soloStore 20 1 = (some ⟨404, "Notification not found"⟩, soloStore)
    ∧ (markAllAsRead soloStore 20)[0]? = some soloNotif
    ∧ soloNotif ∈ clearReadNotifications soloStore 20 := by
  have h := c10_notifications_owner_scoped soloStore 20 1 0 soloNotif
    (by decide) (by decide) (by decide) (by decide)
  exact ⟨h.1, h.2.1, h.2.2.1, h.2.2.2.1⟩
